import Mathlib

/-!
Verification of the CMS hospital data fetch script
(`notebooks/.ipynb_checkpoints/01_fetch_cms_api_data-checkpoint.py`).

The script issues one GET request, validates the HTTP status code, parses the
JSON body, extracts the `results` sequence, converts it to a table with
`pd.DataFrame.from_records`, and writes the table to a fixed CSV path with
`df.to_csv(..., index=False)`.

The embedding below models the script as a pure function from an HTTP
response to an abstract outcome (which failure branch was taken, or the table
that was written), together with views giving the file write, the printed
standard-output lines, and the process exit status of each outcome.
-/

set_option autoImplicit false

namespace CMSFetch

/-- JSON values as decoded by Python (`response.json()`).  Numbers are
modelled as integers: every value exercised by the contract is integral, and
floating point is outside the embedding. -/
inductive Json where
  | null
  | bool (b : Bool)
  | num (n : Int)
  | str (s : String)
  | arr (elems : List Json)
  | obj (fields : List (String × Json))

/-- An HTTP response as seen by the script: the status code, the body text,
and the result of calling `response.json()` on it — either the decoded
document or the decode-error message the library raises (`requests` ships its
own JSON handling; only its observable result matters to the script). -/
structure Response where
  status_code : Nat
  text : String
  json : Except String Json

/-- Python slicing `s[:n]` on a string: the first `n` characters. -/
def strTake (s : String) (n : Nat) : String :=
  ⟨s.data.take n⟩

/-- Python `data.get(key, default)`: only a dict has a `.get` method.  On any
non-object JSON value (list, string, number, bool, null) the attribute access
raises `AttributeError`, which the `except Exception` handler of the script
catches. -/
def pyGet (data : Json) (key : String) (default : Json) : Except String Json :=
  match data with
  | .obj fields =>
      match fields.lookup key with
      | some v => Except.ok v
      | none => Except.ok default
  | _ => Except.error "AttributeError: object has no attribute get"

/-- The keys of a record, in insertion order (empty for non-objects). -/
def recordKeys : Json → List String
  | .obj fields => fields.map Prod.fst
  | _ => []

/-- Append to `cols` the keys of `ks` not already present, keeping first
occurrences and their order. -/
def addNew (cols : List String) (ks : List String) : List String :=
  ks.foldl (fun acc k => if k ∈ acc then acc else acc ++ [k]) cols

/-- Column inference of `pd.DataFrame.from_records` on a list of dicts: the
union of all keys across the records, ordered by first appearance. -/
def inferColumns (recs : List Json) : List String :=
  recs.foldl (fun acc r => addNew acc (recordKeys r)) []

/-- Field lookup inside one record; `none` both for a missing key and for a
non-object record. -/
def lookupField : Json → String → Option Json
  | .obj fields, k => fields.lookup k
  | _, _ => none

/-- The row a record contributes: one cell per table column, `none` (a
missing value, pandas NaN) where the record lacks the key. -/
def recordRow (cols : List String) (rec : Json) : List (Option Json) :=
  cols.map (fun c => lookupField rec c)

/-- Whether a value is a JSON object, i.e. a record mapping. -/
def isRecordObj : Json → Bool
  | .obj _ => true
  | _ => false

/-- The in-memory DataFrame: inferred column names and the cell rows. -/
structure Table where
  columns : List String
  rows : List (List (Option Json))

/-- `pd.DataFrame.from_records` applied to the decoded `results` value.
Embedded for the shapes the data contract admits: a sequence of record
mappings succeeds; a value that is not a sequence of record mappings (for
example a bare number, on which pandas raises `TypeError` because it is not
iterable) is modelled as raising. -/
def from_records (records : Json) : Except String Table :=
  match records with
  | .arr recs =>
      if recs.all isRecordObj then
        Except.ok ⟨inferColumns recs, recs.map (recordRow (inferColumns recs))⟩
      else
        Except.error "TypeError: unsupported element in records"
  | _ => Except.error "TypeError: records value is not iterable"

/-- Whether a CSV field must be quoted under the default minimal quoting of
`to_csv`: it contains the delimiter, the quote character, or a line break. -/
def needsQuote (s : String) : Bool :=
  s.data.any (fun c => c == ',' || c == '"' || c == '\n' || c == '\r')

/-- Double every quote character inside a quoted CSV field. -/
def escapeQuotes (s : String) : String :=
  ⟨s.data.foldr (fun c acc => if c == '"' then '"' :: '"' :: acc else c :: acc) []⟩

/-- Serialize one CSV field with minimal quoting. -/
def csvQuote (s : String) : String :=
  if needsQuote s then "\"" ++ escapeQuotes s ++ "\"" else s

/-- The text `to_csv` writes for one cell: a missing value (NaN) and a JSON
null (None) are written as the empty field; booleans print as Python does;
numbers and strings print directly.  Nested arrays and objects fall outside
the flat-record data contract and are not exercised by any claim; they are
rendered as the empty field. -/
def cellText : Option Json → String
  | none => ""
  | some Json.null => ""
  | some (Json.bool b) => if b then "True" else "False"
  | some (Json.num n) => toString n
  | some (Json.str s) => s
  | some (Json.arr _) => ""
  | some (Json.obj _) => ""

/-- One serialized data row: the quoted cell texts joined by commas. -/
def rowLine (cells : List (Option Json)) : String :=
  String.intercalate "," (cells.map (fun c => csvQuote (cellText c)))

/-- The serialized header row: the quoted column names joined by commas. -/
def headerLine (t : Table) : String :=
  String.intercalate "," (t.columns.map csvQuote)

/-- `df.to_csv(..., index=False)`: the header line followed by one line per
row, each line terminated by a newline, with no row-index column. -/
def to_csv (t : Table) : String :=
  String.intercalate "" ((headerLine t :: t.rows.map rowLine).map (fun l => l ++ "\n"))

/-- The fixed output path of the script. -/
def outputPath : String := "../data/raw/cms_hospital_general_info_api_sample.csv"

/-- The abstract outcome of one run: which terminal branch the script took,
with the data that branch observes.  `statusError` and `parseError` are the
two reported-and-exited branches; `uncaughtError` is an exception raised
outside every handler (during conversion); `success` carries the DataFrame
that was written. -/
inductive Outcome where
  | statusError (code : Nat) (snippet : String)
  | parseError (msg : String)
  | uncaughtError (msg : String)
  | success (df : Table)

/-- The script body, as a function of the response it receives:
status-code validation, then `try: data = response.json();
records = data.get("results", [])` with a report-and-exit handler, then
`pd.DataFrame.from_records(records)` and `df.to_csv(...)` outside any
handler. -/
def script (response : Response) : Outcome :=
  if response.status_code ≠ 200 then
    Outcome.statusError response.status_code (strTake response.text 300)
  else
    match response.json with
    | Except.error e => Outcome.parseError e
    | Except.ok data =>
        match pyGet data "results" (Json.arr []) with
        | Except.error e => Outcome.parseError e
        | Except.ok records =>
            match from_records records with
            | Except.error e => Outcome.uncaughtError e
            | Except.ok df => Outcome.success df

/-- The file write an outcome performs: only the success branch reaches
`df.to_csv`, which writes (path, content). -/
def outputWrite : Outcome → Option (String × String)
  | Outcome.success df => some (outputPath, to_csv df)
  | _ => none

/-- The lines the script itself prints to standard output on each branch.
An uncaught exception prints nothing through the script (the interpreter
traceback is not a script print). -/
def printedLines : Outcome → List String
  | Outcome.statusError code snippet =>
      ["❌ Error fetching data. Status code: " ++ toString code,
       "Response text: " ++ snippet]
  | Outcome.parseError msg => ["❌ Failed to parse JSON: " ++ msg]
  | Outcome.uncaughtError _ => []
  | Outcome.success df =>
      ["✅ Saved " ++ toString df.rows.length ++
       " records from API to cms_hospital_general_info_api_sample.csv"]

/-- The process exit status of each branch: the two failure branches call
bare `exit()`, which raises `SystemExit(None)` and the interpreter exits with
status 0; an uncaught exception exits the interpreter with status 1; running
off the end of the script exits 0. -/
def exitCode : Outcome → Nat
  | Outcome.statusError _ _ => 0
  | Outcome.parseError _ => 0
  | Outcome.uncaughtError _ => 1
  | Outcome.success _ => 0

/-- The state of the output file after one run, given its prior state:
a successful run overwrites it with the fresh CSV text, every other branch
leaves it untouched. -/
def runFile (r : Response) (prev : Option String) : Option String :=
  match outputWrite (script r) with
  | some pc => some pc.2
  | none => prev


/-- Concrete response for the C1 witness: two well-formed records. -/
def respC1 : Response :=
  { status_code := 200, text := "",
    json := Except.ok (Json.obj [("results",
      Json.arr [Json.obj [("id", Json.num 7)], Json.obj [("id", Json.num 8)]])]) }

/-- Concrete response for the C2 witness: a 404 with a short body. -/
def respC2 : Response :=
  { status_code := 404, text := "not found", json := Except.error "no body" }

/-- Concrete response for the C3 witness: status 200 with a body that fails
JSON decoding. -/
def respC3 : Response :=
  { status_code := 200, text := "<html>",
    json := Except.error "Expecting value: line 1 column 1 (char 0)" }

/-- Concrete response for the C4 counterexample: a validation failure. -/
def respC4 : Response :=
  { status_code := 404, text := "", json := Except.error "no body" }

/-- Concrete response for the C4 amended-theorem witness. -/
def respC4w : Response :=
  { status_code := 500, text := "oops", json := Except.error "no body" }

/-- Concrete response for the C5 counterexample: status 200 and a body that
is valid JSON (an empty array) but not a JSON object, hence without a
top-level `results` key. -/
def respC5bad : Response :=
  { status_code := 200, text := "[]", json := Except.ok (Json.arr []) }

/-- Concrete response for the C5 amended-theorem witness: a JSON object body
without a `results` key. -/
def respC5ok : Response :=
  { status_code := 200, text := "",
    json := Except.ok (Json.obj [("count", Json.num 0)]) }

/-- The record sequence of the C6 example body. -/
def recsC6 : List Json :=
  [Json.obj [("a", Json.num 1), ("b", Json.str "x")],
   Json.obj [("a", Json.num 2), ("b", Json.str "y")]]

/-- The table the C6 example converts to. -/
def tableC6 : Table :=
  { columns := ["a", "b"],
    rows := [[some (Json.num 1), some (Json.str "x")],
             [some (Json.num 2), some (Json.str "y")]] }

/-- Concrete response for the C6 example:
body `{"results":[{"a":1,"b":"x"},{"a":2,"b":"y"}]}` with status 200. -/
def respC6 : Response :=
  { status_code := 200, text := "",
    json := Except.ok (Json.obj [("results", Json.arr recsC6)]) }

/-- Concrete response for the C7 witness: one single-field record. -/
def respC7 : Response :=
  { status_code := 200, text := "",
    json := Except.ok (Json.obj [("results",
      Json.arr [Json.obj [("c", Json.str "v")]])]) }

/-- The table the C7 witness response converts to. -/
def tableC7 : Table :=
  { columns := ["c"], rows := [[some (Json.str "v")]] }

/-- Concrete response for the C8 witness. -/
def respC8 : Response :=
  { status_code := 200, text := "",
    json := Except.ok (Json.obj [("results",
      Json.arr [Json.obj [("k", Json.num 5)]])]) }

/-- Concrete response for the C9 witness: a present `results` value that is
a bare number, on which the conversion raises outside every handler. -/
def respC9 : Response :=
  { status_code := 200, text := "",
    json := Except.ok (Json.obj [("results", Json.num 42)]) }

/-- Record sequence for the C10 witness: two records with differing keys. -/
def recsC10 : List Json :=
  [Json.obj [("a", Json.num 1)], Json.obj [("b", Json.num 2)]]

/-- The table the C10 witness records convert to: the key union as columns,
missing cells where a record lacks a key. -/
def tableC10 : Table :=
  { columns := ["a", "b"],
    rows := [[some (Json.num 1), none], [none, some (Json.num 2)]] }

/-- Inversion of a successful conversion: `from_records` succeeds only on a
sequence of record objects, and then yields the inferred columns and the
per-record rows in order. -/
theorem from_records_ok_inv (v : Json) (t : Table)
    (h : from_records v = Except.ok t) :
    ∃ recs : List Json, v = Json.arr recs ∧ recs.all isRecordObj = true
      ∧ t.columns = inferColumns recs
      ∧ t.rows = recs.map (recordRow (inferColumns recs)) := by
  cases v with
  | arr recs =>
      by_cases hall : recs.all isRecordObj = true
      · have hfr : from_records (Json.arr recs)
            = Except.ok (⟨inferColumns recs, recs.map (recordRow (inferColumns recs))⟩ : Table) := by
          simp [from_records, hall]
        rw [hfr] at h
        injection h with h2
        exact ⟨recs, rfl, hall, by rw [← h2], by rw [← h2]⟩
      · exfalso
        simp [from_records, hall] at h
  | null => exfalso; simp [from_records] at h
  | bool b => exfalso; simp [from_records] at h
  | num n => exfalso; simp [from_records] at h
  | str s => exfalso; simp [from_records] at h
  | obj fields => exfalso; simp [from_records] at h

/-- Inversion of a successful run: the table came from `from_records` on a
sequence of record objects, so its columns are the inferred ones and its rows
are the per-record rows in order. -/
theorem script_success_inv (r : Response) (t : Table)
    (h : script r = Outcome.success t) :
    ∃ recs : List Json, recs.all isRecordObj = true
      ∧ t.columns = inferColumns recs
      ∧ t.rows = recs.map (recordRow (inferColumns recs)) := by
  unfold script at h
  split at h
  · cases h
  · split at h
    · cases h
    · split at h
      · cases h
      · split at h
        · cases h
        · rename_i df heq
          injection h with hdf
          subst hdf
          obtain ⟨recs, _, hall, hcols, hrows⟩ := from_records_ok_inv _ _ heq
          exact ⟨recs, hall, hcols, hrows⟩

/-- Membership in `addNew`: exactly the old columns and the new keys. -/
theorem mem_addNew (ks : List String) (cols : List String) (k : String) :
    k ∈ addNew cols ks ↔ k ∈ cols ∨ k ∈ ks := by
  induction ks generalizing cols with
  | nil => simp [addNew]
  | cons a as ih =>
      show k ∈ addNew (if a ∈ cols then cols else cols ++ [a]) as ↔ _
      rw [ih]
      by_cases ha : a ∈ cols
      · rw [if_pos ha]
        simp only [List.mem_cons]
        constructor
        · rintro (hk | hk)
          · exact Or.inl hk
          · exact Or.inr (Or.inr hk)
        · rintro (hk | rfl | hk)
          · exact Or.inl hk
          · exact Or.inl ha
          · exact Or.inr hk
      · rw [if_neg ha]
        simp only [List.mem_append, List.mem_singleton, List.mem_cons]
        tauto

/-- `addNew` preserves freedom from duplicates. -/
theorem nodup_addNew (ks : List String) (cols : List String)
    (h : cols.Nodup) : (addNew cols ks).Nodup := by
  induction ks generalizing cols with
  | nil => exact h
  | cons a as ih =>
      show (addNew (if a ∈ cols then cols else cols ++ [a]) as).Nodup
      by_cases ha : a ∈ cols
      · rw [if_pos ha]; exact ih cols h
      · rw [if_neg ha]
        refine ih _ ?_
        simp [List.nodup_append, h, ha]

/-- Membership in the inferred columns: exactly the keys appearing in some
record. -/
theorem mem_inferColumns (recs : List Json) (k : String) :
    k ∈ inferColumns recs ↔ ∃ rec ∈ recs, k ∈ recordKeys rec := by
  have main : ∀ cols : List String,
      (k ∈ recs.foldl (fun acc r => addNew acc (recordKeys r)) cols
        ↔ k ∈ cols ∨ ∃ rec ∈ recs, k ∈ recordKeys rec) := by
    induction recs with
    | nil => intro cols; simp
    | cons r rs ih =>
        intro cols
        show k ∈ rs.foldl _ (addNew cols (recordKeys r)) ↔ _
        rw [ih, mem_addNew]
        simp only [List.mem_cons]
        constructor
        · rintro ((hk | hk) | ⟨rec, hrec, hk⟩)
          · exact Or.inl hk
          · exact Or.inr ⟨r, Or.inl rfl, hk⟩
          · exact Or.inr ⟨rec, Or.inr hrec, hk⟩
        · rintro (hk | ⟨rec, (rfl | hrec), hk⟩)
          · exact Or.inl (Or.inl hk)
          · exact Or.inl (Or.inr hk)
          · exact Or.inr ⟨rec, hrec, hk⟩
  simpa [inferColumns] using main []

/-- Fusion of the column inference: folding `addNew` record by record is the
same as one first-occurrence pass over the concatenation of all record key
lists, so the columns are the first occurrences of the key stream, in scan
order. -/
theorem inferColumns_eq_addNew_join (recs : List Json) :
    inferColumns recs = addNew [] ((recs.map recordKeys).flatten) := by
  have main : ∀ cols : List String,
      recs.foldl (fun acc r => addNew acc (recordKeys r)) cols
        = addNew cols ((recs.map recordKeys).flatten) := by
    induction recs with
    | nil => intro cols; rfl
    | cons r rs ih =>
        intro cols
        show rs.foldl _ (addNew cols (recordKeys r)) = _
        rw [ih]
        simp [addNew, List.foldl_append]
  exact main []

/-- The first-occurrence pass lists its elements in strictly increasing
order of their first position in the scanned list. -/
theorem pairwise_indexOf_addNew (ks : List String) :
    (addNew [] ks).Pairwise (fun a b => ks.indexOf a < ks.indexOf b) := by
  induction ks using List.reverseRecOn with
  | nil => simp [addNew]
  | append_singleton ks k ih =>
      have hstep : addNew [] (ks ++ [k])
          = if k ∈ addNew [] ks then addNew [] ks else addNew [] ks ++ [k] := by
        simp [addNew, List.foldl_append]
      have hsub : ∀ a, a ∈ addNew [] ks → a ∈ ks := fun a ha =>
        ((mem_addNew ks [] a).1 ha).resolve_left (List.not_mem_nil a)
      rw [hstep]
      by_cases hk : k ∈ addNew [] ks
      · rw [if_pos hk]
        refine List.Pairwise.imp_of_mem ?_ ih
        intro a b ha hb hab
        rw [List.indexOf_append_of_mem (hsub a ha),
            List.indexOf_append_of_mem (hsub b hb)]
        exact hab
      · rw [if_neg hk]
        have hknotin : k ∉ ks := fun hin => hk ((mem_addNew ks [] k).2 (Or.inr hin))
        rw [List.pairwise_append]
        refine ⟨?_, by simp, ?_⟩
        · refine List.Pairwise.imp_of_mem ?_ ih
          intro a b ha hb hab
          rw [List.indexOf_append_of_mem (hsub a ha),
              List.indexOf_append_of_mem (hsub b hb)]
          exact hab
        · intro a ha b hb
          rw [List.mem_singleton] at hb
          rw [hb]
          have h1 : List.indexOf a (ks ++ [k]) = ks.indexOf a :=
            List.indexOf_append_of_mem (hsub a ha)
          have h2 : List.indexOf k (ks ++ [k]) = ks.length := by
            rw [List.indexOf_append_of_not_mem hknotin]
            simp
          rw [h1, h2]
          exact List.indexOf_lt_length.2 (hsub a ha)

/-- The inferred columns carry no duplicate name. -/
theorem nodup_inferColumns (recs : List Json) : (inferColumns recs).Nodup := by
  have main : ∀ cols : List String, cols.Nodup →
      (recs.foldl (fun acc r => addNew acc (recordKeys r)) cols).Nodup := by
    induction recs with
    | nil => intro cols h; exact h
    | cons r rs ih =>
        intro cols h
        exact ih _ (nodup_addNew (recordKeys r) cols h)
  exact main [] List.nodup_nil

/-- C1: for a 200 response whose body decodes to JSON from which the
`results` key yields a sequence of N record objects, the run succeeds, the
table holds exactly one row per record (none dropped, none duplicated), and
the written CSV text is the header line plus exactly N data lines, N + 1
lines in all. -/
theorem C1_row_count (r : Response) (d : Json) (recs : List Json)
    (hs : r.status_code = 200)
    (hj : r.json = Except.ok d)
    (hg : pyGet d "results" (Json.arr []) = Except.ok (Json.arr recs))
    (hw : recs.all isRecordObj = true) :
    ∃ t : Table, script r = Outcome.success t
      ∧ t.rows.length = recs.length
      ∧ outputWrite (script r) = some (outputPath, to_csv t)
      ∧ to_csv t = String.intercalate ""
          ((headerLine t :: t.rows.map rowLine).map (fun l => l ++ "\n"))
      ∧ (headerLine t :: t.rows.map rowLine).length = recs.length + 1 := by
  have hscript : script r
      = Outcome.success ⟨inferColumns recs, recs.map (recordRow (inferColumns recs))⟩ := by
    simp [script, hs, hj, hg, from_records, hw]
  refine ⟨⟨inferColumns recs, recs.map (recordRow (inferColumns recs))⟩,
    hscript, by simp, ?_, rfl, by simp⟩
  rw [hscript]
  rfl

/-- Witness for C1 at a concrete two-record 200 response. -/
theorem C1_row_count_witness :
    ∃ t : Table, script respC1 = Outcome.success t
      ∧ t.rows.length = 2
      ∧ outputWrite (script respC1) = some (outputPath, to_csv t)
      ∧ to_csv t = String.intercalate ""
          ((headerLine t :: t.rows.map rowLine).map (fun l => l ++ "\n"))
      ∧ (headerLine t :: t.rows.map rowLine).length = 2 + 1 :=
  C1_row_count respC1
    (Json.obj [("results",
      Json.arr [Json.obj [("id", Json.num 7)], Json.obj [("id", Json.num 8)]])])
    [Json.obj [("id", Json.num 7)], Json.obj [("id", Json.num 8)]]
    rfl rfl rfl rfl

/-- C2: on every response whose status code is not 200, the script reports
the status code together with the first 300 characters of the body and stops
in the status-error branch, performing no file write. -/
theorem C2_non200 (r : Response) (h : r.status_code ≠ 200) :
    script r = Outcome.statusError r.status_code (strTake r.text 300)
      ∧ outputWrite (script r) = none
      ∧ printedLines (script r) =
          ["❌ Error fetching data. Status code: " ++ toString r.status_code,
           "Response text: " ++ strTake r.text 300] := by
  have hscript : script r = Outcome.statusError r.status_code (strTake r.text 300) := by
    unfold script
    rw [if_pos h]
  exact ⟨hscript, by rw [hscript]; rfl, by rw [hscript]; rfl⟩

/-- Witness for C2 at a concrete 404 response. -/
theorem C2_non200_witness :
    script respC2 = Outcome.statusError 404 (strTake "not found" 300)
      ∧ outputWrite (script respC2) = none
      ∧ printedLines (script respC2) =
          ["❌ Error fetching data. Status code: " ++ toString 404,
           "Response text: " ++ strTake "not found" 300] :=
  C2_non200 respC2 (by decide)

/-- C3: on every 200 response whose body fails JSON decoding, the script
reports the underlying parse error and stops in the parse-error branch,
performing no file write. -/
theorem C3_bad_json (r : Response) (e : String)
    (hs : r.status_code = 200) (hj : r.json = Except.error e) :
    script r = Outcome.parseError e
      ∧ outputWrite (script r) = none
      ∧ printedLines (script r) = ["❌ Failed to parse JSON: " ++ e] := by
  have hscript : script r = Outcome.parseError e := by
    unfold script
    rw [hj]
    simp [hs]
  exact ⟨hscript, by rw [hscript]; rfl, by rw [hscript]; rfl⟩

/-- Witness for C3 at a concrete 200 response with a non-JSON body. -/
theorem C3_bad_json_witness :
    script respC3 = Outcome.parseError "Expecting value: line 1 column 1 (char 0)"
      ∧ outputWrite (script respC3) = none
      ∧ printedLines (script respC3) =
          ["❌ Failed to parse JSON: " ++ "Expecting value: line 1 column 1 (char 0)"] :=
  C3_bad_json respC3 "Expecting value: line 1 column 1 (char 0)" rfl rfl

/-- C4 counterexample: at a concrete validation failure (status 404) the
script stops in its terminal failure branch, yet the process exit status is
0 — bare `exit()` exits with status 0 — refuting the non-zero part of the
claimed termination behaviour. -/
theorem C4_counterexample :
    script respC4 = Outcome.statusError 404 ""
      ∧ ¬ exitCode (script respC4) ≠ 0 :=
  ⟨rfl, fun hne => hne rfl⟩

/-- C4 (corrected): every validation failure and every parse failure stops
the run early with no output write, and the process exit status is 0 for
both failure causes — the termination point is early and numerically
indistinguishable between the causes, but its exit code is zero, not
non-zero. -/
theorem C4_exit_semantics (r : Response) :
    (∀ c s, script r = Outcome.statusError c s →
        outputWrite (script r) = none ∧ exitCode (script r) = 0)
    ∧ (∀ m, script r = Outcome.parseError m →
        outputWrite (script r) = none ∧ exitCode (script r) = 0) := by
  constructor
  · intro c s h
    rw [h]
    exact ⟨rfl, rfl⟩
  · intro m h
    rw [h]
    exact ⟨rfl, rfl⟩

/-- Witness for C4 (corrected) at a concrete 500 response. -/
theorem C4_exit_semantics_witness :
    outputWrite (script respC4w) = none ∧ exitCode (script respC4w) = 0 :=
  (C4_exit_semantics respC4w).1 500 (strTake "oops" 300) rfl

/-- C5 counterexample: a 200 response whose body is valid JSON without a
top-level `results` key — here the JSON array `[]` — produces no output
file: `.get` on a non-dict raises inside the try block and the run stops in
the parse-error branch, refuting the claim that the file is still created
for every such body. -/
theorem C5_counterexample :
    script respC5bad = Outcome.parseError "AttributeError: object has no attribute get"
      ∧ outputWrite (script respC5bad) = none :=
  ⟨rfl, rfl⟩

/-- C5 (corrected): for every 200 response whose body is a valid JSON
object lacking the `results` key, the records default to the empty sequence
and the output file is created with zero data rows — its content is the
lone empty header line. -/
theorem C5_missing_results (r : Response) (fields : List (String × Json))
    (hs : r.status_code = 200)
    (hj : r.json = Except.ok (Json.obj fields))
    (hk : fields.lookup "results" = none) :
    script r = Outcome.success ⟨[], []⟩
      ∧ outputWrite (script r) = some (outputPath, "\n") := by
  have hscript : script r = Outcome.success ⟨[], []⟩ := by
    simp [script, hs, hj, pyGet, hk, from_records, inferColumns]
  exact ⟨hscript, by rw [hscript]; rfl⟩

/-- Witness for C5 (corrected) at a concrete object body without `results`. -/
theorem C5_missing_results_witness :
    script respC5ok = Outcome.success ⟨[], []⟩
      ∧ outputWrite (script respC5ok) = some (outputPath, "\n") :=
  C5_missing_results respC5ok [("count", Json.num 0)] rfl rfl rfl

/-- C6: each row of a converted table is the row of the correspondingly
positioned input record — order preserved, one row per record — and on the
example body with records a=1,b=x then a=2,b=y the script writes exactly the
CSV text with header line a,b followed by 1,x then 2,y. -/
theorem C6_row_order :
    (∀ (recs : List Json) (t : Table),
        from_records (Json.arr recs) = Except.ok t →
        t.rows = recs.map (recordRow t.columns))
    ∧ script respC6 = Outcome.success tableC6
    ∧ outputWrite (script respC6) = some (outputPath, "a,b\n1,x\n2,y\n") := by
  refine ⟨?_, rfl, rfl⟩
  intro recs t h
  obtain ⟨recs2, heq, hall, hcols, hrows⟩ := from_records_ok_inv _ _ h
  injection heq with h2
  subst h2
  rw [hrows, hcols]

/-- Witness for C6: the order-preservation component applied to the example
records and table. -/
theorem C6_row_order_witness :
    tableC6.rows = recsC6.map (recordRow tableC6.columns) :=
  C6_row_order.1 recsC6 tableC6 rfl

/-- C7: every successful run writes to the fixed relative CSV path; the
content is the comma-joined header line of the inferred columns followed by
the comma-joined data lines, each newline-terminated, and every data row has
exactly one cell per column — no row-index column is added. -/
theorem C7_output_format (r : Response) (t : Table)
    (h : script r = Outcome.success t) :
    outputWrite (script r) = some (outputPath, to_csv t)
      ∧ outputPath = "../data/raw/cms_hospital_general_info_api_sample.csv"
      ∧ headerLine t = String.intercalate "," (t.columns.map csvQuote)
      ∧ to_csv t = String.intercalate ""
          ((headerLine t :: t.rows.map rowLine).map (fun l => l ++ "\n"))
      ∧ ∀ row ∈ t.rows, row.length = t.columns.length := by
  refine ⟨by rw [h]; rfl, rfl, rfl, rfl, ?_⟩
  obtain ⟨recs, hall, hcols, hrows⟩ := script_success_inv r t h
  intro row hrow
  rw [hrows] at hrow
  obtain ⟨rec, hrec, hreq⟩ := List.mem_map.1 hrow
  rw [← hreq, hcols]
  simp [recordRow]

/-- Witness for C7 at a concrete one-record 200 response. -/
theorem C7_output_format_witness :
    outputWrite (script respC7) = some (outputPath, to_csv tableC7)
      ∧ outputPath = "../data/raw/cms_hospital_general_info_api_sample.csv"
      ∧ headerLine tableC7 = String.intercalate "," (tableC7.columns.map csvQuote)
      ∧ to_csv tableC7 = String.intercalate ""
          ((headerLine tableC7 :: tableC7.rows.map rowLine).map (fun l => l ++ "\n"))
      ∧ ∀ row ∈ tableC7.rows, row.length = tableC7.columns.length :=
  C7_output_format respC7 tableC7 rfl

/-- C8: one run is idempotent on the output file: a second run against the
same response leaves exactly the file state the first run left — a success
overwrites with the identical bytes, a failure leaves the file untouched —
so repeated runs never append. -/
theorem C8_idempotent (r : Response) (prev : Option String) :
    runFile r (runFile r prev) = runFile r prev := by
  unfold runFile
  cases outputWrite (script r) with
  | none => rfl
  | some pc => rfl

/-- Witness for C8 at a concrete successful response starting from an empty
file system. -/
theorem C8_idempotent_witness :
    runFile respC8 (runFile respC8 none) = runFile respC8 none :=
  C8_idempotent respC8 none

/-- C9: the report-and-exit handling covers only the status check and the
decode-and-extract step; when the extracted `results` value makes the table
conversion raise, the exception is outside every handler: the run stops in
the uncaught branch, prints no message of its own, writes no file, and the
interpreter exits with the uncaught-exception status 1. -/
theorem C9_uncaught (r : Response) (d v : Json) (m : String)
    (hs : r.status_code = 200) (hj : r.json = Except.ok d)
    (hg : pyGet d "results" (Json.arr []) = Except.ok v)
    (hf : from_records v = Except.error m) :
    script r = Outcome.uncaughtError m
      ∧ printedLines (script r) = []
      ∧ outputWrite (script r) = none
      ∧ exitCode (script r) = 1 := by
  have hscript : script r = Outcome.uncaughtError m := by
    simp [script, hs, hj, hg, hf]
  exact ⟨hscript, by rw [hscript]; rfl, by rw [hscript]; rfl, by rw [hscript]; rfl⟩

/-- Witness for C9 at a concrete response whose `results` value is the bare
number 42. -/
theorem C9_uncaught_witness :
    script respC9 = Outcome.uncaughtError "TypeError: records value is not iterable"
      ∧ printedLines (script respC9) = []
      ∧ outputWrite (script respC9) = none
      ∧ exitCode (script respC9) = 1 :=
  C9_uncaught respC9 (Json.obj [("results", Json.num 42)]) (Json.num 42)
    "TypeError: records value is not iterable" rfl rfl rfl rfl

/-- C10: for every non-empty record sequence the conversion accepts, the
table columns are a duplicate-free enumeration of exactly the keys appearing
in some record, listed in order of first appearance: they equal the
first-occurrence pass over the concatenated key stream of the records, and
consecutive columns have strictly increasing first positions in that stream.
Every row has exactly one cell per column — so every CSV data line has as
many fields as the header — and the cell of a record under a column whose
key it lacks is the missing value. -/
theorem C10_union_columns (recs : List Json) (t : Table)
    (_hne : recs ≠ [])
    (h : from_records (Json.arr recs) = Except.ok t) :
    (∀ k, k ∈ t.columns ↔ ∃ rec ∈ recs, k ∈ recordKeys rec)
      ∧ t.columns.Nodup
      ∧ t.columns = addNew [] ((recs.map recordKeys).flatten)
      ∧ t.columns.Pairwise (fun a b =>
          ((recs.map recordKeys).flatten).indexOf a
            < ((recs.map recordKeys).flatten).indexOf b)
      ∧ t.rows = recs.map (recordRow t.columns)
      ∧ (∀ row ∈ t.rows, row.length = t.columns.length)
      ∧ ∀ rec ∈ recs, ∀ i : Fin t.columns.length,
          lookupField rec (t.columns.get i) = none →
          (recordRow t.columns rec).get ⟨i.1, by simp [recordRow]⟩ = none := by
  obtain ⟨recs2, heq, hall, hcols, hrows⟩ := from_records_ok_inv _ _ h
  injection heq with h2
  subst h2
  refine ⟨?_, ?_, ?_, ?_, ?_, ?_, ?_⟩
  · intro k
    rw [hcols]
    exact mem_inferColumns recs k
  · rw [hcols]
    exact nodup_inferColumns recs
  · rw [hcols]
    exact inferColumns_eq_addNew_join recs
  · rw [hcols, inferColumns_eq_addNew_join]
    exact pairwise_indexOf_addNew _
  · rw [hrows, hcols]
  · intro row hrow
    rw [hrows] at hrow
    obtain ⟨rec, hrec, hreq⟩ := List.mem_map.1 hrow
    rw [← hreq, hcols]
    simp [recordRow]
  · intro rec hrec i hlook
    simp only [recordRow, List.get_eq_getElem, List.getElem_map]
    rw [List.get_eq_getElem] at hlook
    exact hlook

/-- Witness for C10 at two concrete records with differing key sets. -/
theorem C10_union_columns_witness :
    (∀ k, k ∈ tableC10.columns ↔ ∃ rec ∈ recsC10, k ∈ recordKeys rec)
      ∧ tableC10.columns.Nodup
      ∧ tableC10.columns = addNew [] ((recsC10.map recordKeys).flatten)
      ∧ tableC10.columns.Pairwise (fun a b =>
          ((recsC10.map recordKeys).flatten).indexOf a
            < ((recsC10.map recordKeys).flatten).indexOf b)
      ∧ tableC10.rows = recsC10.map (recordRow tableC10.columns)
      ∧ (∀ row ∈ tableC10.rows, row.length = tableC10.columns.length)
      ∧ ∀ rec ∈ recsC10, ∀ i : Fin tableC10.columns.length,
          lookupField rec (tableC10.columns.get i) = none →
          (recordRow tableC10.columns rec).get ⟨i.1, by simp [recordRow]⟩ = none :=
  C10_union_columns recsC10 tableC10 (by simp [recsC10]) rfl

end CMSFetch
